import Mathlib

/-!
Verification of the topology-recovery engine (go/logic/topology_recovery.go).

This file gives a shallow embedding of the recovery engine's decision logic:
hook-command placeholder substitution, the dead-master promotion override
gates, the dead-intermediate-master plan sequence, the dead-co-master
promotion/detach logic, the graceful-takeover failure path, the binlog-server
postponed-function loop, and the recovery-registration call sites.  Pure parts
of the Go code become Lean functions over explicit inputs; external calls
(rewirer results, replication waits, relocations) become explicit parameters
recording their observable outcomes.
-/

set_option autoImplicit false

namespace TopologyRecoveryModel

/-! ## Strings and Go strings.Replace

Commands are modelled as lists of characters.  `replaceAll s pat rep` mirrors
Go `strings.Replace(s, pat, rep, -1)`: replaces every non-overlapping
occurrence of `pat` in `s`, scanning left to right. -/

abbrev Str := List Char

/-- Fuel-driven worker for `replaceAll`; the fuel bounds the number of scan
steps, each of which consumes at least one character of the input. -/
def replaceFuel (pat rep : Str) : Nat → Str → Str
  | 0, s => s
  | _ + 1, [] => []
  | fuel + 1, c :: rest =>
    if pat.isPrefixOf (c :: rest) then
      rep ++ replaceFuel pat rep fuel (List.drop (pat.length - 1) rest)
    else
      c :: replaceFuel pat rep fuel rest

/-- Model of Go `strings.Replace(s, pat, rep, -1)` for nonempty `pat`:
replace every non-overlapping occurrence of `pat` in `s` by `rep`. -/
def replaceAll (s pat rep : Str) : Str :=
  replaceFuel pat rep s.length s

/-- Whether `pat` occurs as a contiguous substring of `s`. -/
def occursIn (pat : Str) : Str → Bool
  | [] => pat.isPrefixOf ([] : Str)
  | c :: rest => pat.isPrefixOf (c :: rest) || occursIn pat rest

theorem replaceFuel_of_not_occurs (pat rep : Str) :
    ∀ (fuel : Nat) (s : Str), occursIn pat s = false → replaceFuel pat rep fuel s = s := by
  intro fuel
  induction fuel with
  | zero => intro s _; rfl
  | succ n ih =>
    intro s h
    cases s with
    | nil => rfl
    | cons c rest =>
      simp only [occursIn, Bool.or_eq_false_iff] at h
      simp [replaceFuel, h.1, ih rest h.2]

/-- If `pat` does not occur in `s` then replacement leaves `s` unchanged,
whatever the replacement text is. -/
theorem replaceAll_of_not_occurs (s pat rep : Str) (h : occursIn pat s = false) :
    replaceAll s pat rep = s :=
  replaceFuel_of_not_occurs pat rep s.length s h

/-! ## Data model for hook-command substitution

The fields of `inst.ReplicationAnalysis` and `TopologyRecovery` that
`replaceCommandPlaceholders` reads. -/

/-- Host and port pair identifying an instance. -/
structure InstanceKey where
  hostname : Str
  port : Nat
deriving DecidableEq

/-- The slice of `inst.ReplicationAnalysis` consumed by placeholder
substitution. -/
structure ReplicationAnalysis where
  analysis : Str
  description : Str
  commandHint : Str
  analyzedInstanceKey : InstanceKey
  clusterName : Str
  clusterAlias : Str
  clusterDomain : Str
  countReplicas : Nat
  isDowntimed : Bool
  hasAutomatedMasterRecovery : Bool
  hasAutomatedIntermediateMasterRecovery : Bool
  slaveHosts : List Str

/-- The slice of `TopologyRecovery` consumed by placeholder substitution. -/
structure TopologyRecovery where
  uid : Str
  analysisEntry : ReplicationAnalysis
  successorKey : Option InstanceKey
  successorAlias : Str
  lostReplicas : List Str

/-- Rendering of a Go `bool` via `fmt.Sprint`. -/
def boolStr : Bool → Str
  | true => "true".toList
  | false => "false".toList

/-- Rendering of a Go integer via `fmt.Sprintf` with a decimal verb. -/
def natStr (n : Nat) : Str :=
  (Nat.repr n).toList

/-- Model of `InstanceKeyMap.ToCommaDelimitedList` over an explicit ordering
of the entries. -/
def commaDelimited : List Str → Str
  | [] => []
  | [x] => x
  | x :: rest => x ++ ',' :: commaDelimited rest

/-! ## Placeholder patterns (the literal placeholder strings of the source) -/

def phFailureType : Str := "{failureType}".toList

def phFailureDescription : Str := "{failureDescription}".toList

def phCommand : Str := "{command}".toList

def phFailedHost : Str := "{failedHost}".toList

def phFailedPort : Str := "{failedPort}".toList

def phFailureCluster : Str := "{failureCluster}".toList

def phFailureClusterAlias : Str := "{failureClusterAlias}".toList

def phFailureClusterDomain : Str := "{failureClusterDomain}".toList

def phCountSlaves : Str := "{countSlaves}".toList

def phCountReplicas : Str := "{countReplicas}".toList

def phIsDowntimed : Str := "{isDowntimed}".toList

def phAutoMasterRecovery : Str := "{autoMasterRecovery}".toList

def phAutoIntermediateMasterRecovery : Str := "{autoIntermediateMasterRecovery}".toList

def phOrchestratorHost : Str := "{orchestratorHost}".toList

def phRecoveryUID : Str := "{recoveryUID}".toList

def phIsSuccessful : Str := "{isSuccessful}".toList

def phSuccessorHost : Str := "{successorHost}".toList

def phSuccessorPort : Str := "{successorPort}".toList

def phSuccessorAlias : Str := "{successorAlias}".toList

def phLostSlaves : Str := "{lostSlaves}".toList

def phLostReplicas : Str := "{lostReplicas}".toList

def phCountLostReplicas : Str := "{countLostReplicas}".toList

def phSlaveHosts : Str := "{slaveHosts}".toList

def phReplicaHosts : Str := "{replicaHosts}".toList

/-- Model of `replaceCommandPlaceholders`: the exact Go sequence of
`strings.Replace` calls.  `thisHostname` stands for the package-level
`process.ThisHostname`.  The successor placeholders are substituted only
inside the `SuccessorKey != nil` branch, exactly as in the source. -/
def replaceCommandPlaceholders (command : Str) (tr : TopologyRecovery) (thisHostname : Str) : Str :=
  let a := tr.analysisEntry
  let c := replaceAll command phFailureType a.analysis
  let c := replaceAll c phFailureDescription a.description
  let c := replaceAll c phCommand a.commandHint
  let c := replaceAll c phFailedHost a.analyzedInstanceKey.hostname
  let c := replaceAll c phFailedPort (natStr a.analyzedInstanceKey.port)
  let c := replaceAll c phFailureCluster a.clusterName
  let c := replaceAll c phFailureClusterAlias a.clusterAlias
  let c := replaceAll c phFailureClusterDomain a.clusterDomain
  let c := replaceAll c phCountSlaves (natStr a.countReplicas)
  let c := replaceAll c phCountReplicas (natStr a.countReplicas)
  let c := replaceAll c phIsDowntimed (boolStr a.isDowntimed)
  let c := replaceAll c phAutoMasterRecovery (boolStr a.hasAutomatedMasterRecovery)
  let c := replaceAll c phAutoIntermediateMasterRecovery (boolStr a.hasAutomatedIntermediateMasterRecovery)
  let c := replaceAll c phOrchestratorHost thisHostname
  let c := replaceAll c phRecoveryUID tr.uid
  let c := replaceAll c phIsSuccessful (boolStr tr.successorKey.isSome)
  let c :=
    match tr.successorKey with
    | some k =>
      let c := replaceAll c phSuccessorHost k.hostname
      let c := replaceAll c phSuccessorPort (natStr k.port)
      replaceAll c phSuccessorAlias tr.successorAlias
    | none => c
  let c := replaceAll c phLostSlaves (commaDelimited tr.lostReplicas)
  let c := replaceAll c phLostReplicas (commaDelimited tr.lostReplicas)
  let c := replaceAll c phCountLostReplicas (natStr tr.lostReplicas.length)
  let c := replaceAll c phSlaveHosts (commaDelimited a.slaveHosts)
  replaceAll c phReplicaHosts (commaDelimited a.slaveHosts)

/-! ## Dead-master recovery: geographic constraint and promotion override gates

Models `MasterFailoverGeographicConstraintSatisfied` and the
`overrideMasterPromotion` closure of `checkAndRecoverDeadMaster`. -/

/-- The two geographic-constraint configuration flags. -/
structure GeoConfig where
  preventCrossDataCenterMasterFailover : Bool
  preventCrossRegionMasterFailover : Bool

/-- Geographic attributes of an instance (the fields the constraint reads). -/
structure InstanceGeo where
  dataCenter : String
  region : String

/-- Model of `MasterFailoverGeographicConstraintSatisfied`: returns whether
the suggested instance satisfies the configured geographic constraints
relative to the analyzed (failed) instance, plus the dissatisfaction
reason. -/
def MasterFailoverGeographicConstraintSatisfied (cfg : GeoConfig)
    (analyzedDataCenter analyzedRegion : String) (suggested : InstanceGeo) :
    Bool × String :=
  if cfg.preventCrossDataCenterMasterFailover = true ∧ suggested.dataCenter ≠ analyzedDataCenter then
    (false, "PreventCrossDataCenterMasterFailover: will not promote server in " ++
      suggested.dataCenter ++ " when failed server in " ++ analyzedDataCenter)
  else if cfg.preventCrossRegionMasterFailover = true ∧ suggested.region ≠ analyzedRegion then
    (false, "PreventCrossRegionMasterFailover: will not promote server in " ++
      suggested.region ++ " when failed server in " ++ analyzedRegion)
  else
    (true, "")

/-- Configuration flags read by the dead-master override gates. -/
structure DeadMasterOverrideConfig where
  geo : GeoConfig
  failMasterPromotionIfSQLThreadNotUpToDate : Bool
  delayMasterPromotionIfSQLThreadNotUpToDate : Bool

/-- State of the rewirer-promoted replica as the override gates see it. -/
structure PromotedReplica where
  geoInfo : InstanceGeo
  sqlThreadUpToDate : Bool

/-- Result of the override gates: the surviving promotion (if any), and
whether the executor entered the delay-gate wait. -/
structure OverrideResult where
  promoted : Option PromotedReplica
  waited : Bool

/-- Model of the `overrideMasterPromotion` closure in
`checkAndRecoverDeadMaster`.  `waitSucceeds` records the outcome of the
external `inst.WaitForSQLThreadUpToDate` call entered by the delay gate. -/
def overrideMasterPromotion (cfg : DeadMasterOverrideConfig)
    (analyzedDataCenter analyzedRegion : String)
    (promoted : Option PromotedReplica) (waitSucceeds : Bool) : OverrideResult :=
  match promoted with
  | none => ⟨none, false⟩
  | some p =>
    if (MasterFailoverGeographicConstraintSatisfied cfg.geo analyzedDataCenter analyzedRegion p.geoInfo).1 = false then
      ⟨none, false⟩
    else if cfg.failMasterPromotionIfSQLThreadNotUpToDate = true ∧ p.sqlThreadUpToDate = false then
      ⟨none, false⟩
    else if cfg.delayMasterPromotionIfSQLThreadNotUpToDate = true ∧ p.sqlThreadUpToDate = false then
      if waitSucceeds then ⟨some p, true⟩ else ⟨none, true⟩
    else
      ⟨some p, false⟩

/-- Model of `resolveRecovery`: a recovery is recorded successful exactly
when a successor instance is supplied. -/
def resolveRecoveryIsSuccessful (successor : Option PromotedReplica) : Bool :=
  successor.isSome

/-- The successor that `checkAndRecoverDeadMaster` passes to
`resolveRecovery`: the rewirer promotion filtered through the override
gates. -/
def deadMasterResolvedSuccessor (cfg : DeadMasterOverrideConfig)
    (analyzedDataCenter analyzedRegion : String)
    (promoted : Option PromotedReplica) (waitSucceeds : Bool) : Option PromotedReplica :=
  (overrideMasterPromotion cfg analyzedDataCenter analyzedRegion promoted waitSucceeds).promoted

/-! ## Recovery registration call sites

`AttemptRecoveryRegistration` lives in the recovery record store
(a file not part of this package's sources); its observable contract is
modelled from the spec.  The call sites in `checkAndRecoverDeadMaster` and
`checkAndRecoverDeadCoMaster` are modelled from the source. -/

/-- Modelled from the spec: `registerAttempt(analysis, failIfActive,
failIfRecent)` of the Recovery Record Store (`AttemptRecoveryRegistration`,
whose body is outside the observed sources).  It atomically checks that no
active record exists for the failed key (when `failIfActive`) and no recent
completed record exists within the cooldown (when `failIfRecent`); if either
check fails it returns nil, otherwise it persists and returns a new record.
The result `true` models a non-nil returned record. -/
def registerAttempt (activeRecoveryExists recentRecoveryExists failIfActive failIfRecent : Bool) : Bool :=
  if failIfActive && activeRecoveryExists then false
  else if failIfRecent && recentRecoveryExists then false
  else true

/-- Model of the registration prologue of `checkAndRecoverDeadMaster`:
the policy gate `force || HasAutomatedMasterRecovery`, then
`AttemptRecoveryRegistration(&analysisEntry, !force, !force)`.  The result
is `true` exactly when a recovery is registered and executed. -/
def checkAndRecoverDeadMasterProceeds (hasAutomatedMasterRecovery force activeRecoveryExists recentRecoveryExists : Bool) : Bool :=
  if !(force || hasAutomatedMasterRecovery) then false
  else registerAttempt activeRecoveryExists recentRecoveryExists (!force) (!force)

/-- Model of the registration prologue of `checkAndRecoverDeadCoMaster`,
identical in shape to the dead-master one. -/
def checkAndRecoverDeadCoMasterProceeds (hasAutomatedMasterRecovery force activeRecoveryExists recentRecoveryExists : Bool) : Bool :=
  if !(force || hasAutomatedMasterRecovery) then false
  else registerAttempt activeRecoveryExists recentRecoveryExists (!force) (!force)

/-! ## Dead-intermediate-master recovery

Models the control flow of `RecoverDeadIntermediateMaster`: pre-failover
hooks, reading the failed instance, then plans A (relocate to same-DC
candidate sibling), B (generic regroup), C (relocate to other-DC candidate
sibling) and D (relocate up below the failed node's master), followed by
`resolveRecovery`.  External calls are summarized by their observable
outcomes. -/

/-- Observable outcome of an `inst.RelocateReplicas` call: how many replicas
were relocated, how many per-replica errors were reported, and whether the
call itself returned an error. -/
structure RelocateOutcome where
  moved : Nat
  errCount : Nat
  failed : Bool

/-- Observable outcome of the plan-B `inst.RegroupReplicas` call. -/
structure RegroupOutcome where
  lostCount : Nat
  promoted : Bool
  failed : Bool

/-- Which instance ends up recorded as the successor of an
intermediate-master recovery. -/
inductive IMSuccessor where
  | candidateSibling
  | regroupPromoted
  | masterOfFailed
deriving DecidableEq

/-- Inputs of one `RecoverDeadIntermediateMaster` run. -/
structure IMEnv where
  preHookFails : Bool
  skipProcesses : Bool
  readInstanceFails : Bool
  hasCandidateSibling : Bool
  candidateSiblingSameDC : Bool
  relocateToCandidate : RelocateOutcome
  regroup : RegroupOutcome
  relocateUp : RelocateOutcome

/-- Result of one `RecoverDeadIntermediateMaster` run: the successor passed
to `resolveRecovery`, whether `resolveRecovery` was reached at all, and how
many replicas the candidate-sibling relocation and the relocate-up moved
(0 when the corresponding plan did not run). -/
structure IMResult where
  successor : Option IMSuccessor
  resolutionPublished : Bool
  movedToCandidate : Nat
  movedUp : Nat
deriving DecidableEq

/-- The `relocateReplicasToCandidateSibling` closure resolves the recovery
exactly when it relocated at least one replica, the call did not error, and
no per-replica errors were reported. -/
def candidateRelocationResolves (r : RelocateOutcome) : Bool :=
  decide (0 < r.moved) && !r.failed && r.errCount == 0

/-- Model of `RecoverDeadIntermediateMaster`. -/
def RecoverDeadIntermediateMaster (e : IMEnv) : IMResult :=
  if e.preHookFails && !e.skipProcesses then
    ⟨none, false, 0, 0⟩
  else if e.readInstanceFails then
    ⟨none, false, 0, 0⟩
  else
    let planARan := e.hasCandidateSibling && e.candidateSiblingSameDC
    let movedA := if planARan then e.relocateToCandidate.moved else 0
    let resolvedA := planARan && candidateRelocationResolves e.relocateToCandidate
    if resolvedA then
      ⟨some .candidateSibling, true, movedA, 0⟩
    else
      let planBSuccessor : Option IMSuccessor :=
        if e.regroup.promoted && e.regroup.lostCount == 0 && !e.regroup.failed then
          some .regroupPromoted
        else
          none
      let planCRan := e.hasCandidateSibling && !e.candidateSiblingSameDC
      let movedAC := movedA + (if planCRan then e.relocateToCandidate.moved else 0)
      let resolvedC := planCRan && candidateRelocationResolves e.relocateToCandidate
      if resolvedC then
        ⟨some .candidateSibling, true, movedAC, 0⟩
      else if 0 < e.relocateUp.moved then
        match planBSuccessor with
        | some s => ⟨some s, true, movedAC, e.relocateUp.moved⟩
        | none => ⟨some .masterOfFailed, true, movedAC, e.relocateUp.moved⟩
      else
        ⟨none, true, movedAC, 0⟩

/-- Post-recovery hook selection of the dispatcher
(`executeCheckAndRecoverFunction`): after an attempted recovery that
returned a record, unless processes are skipped, the post-unsuccessful
hooks run when there is no successor, and the post-failover hooks
otherwise. -/
inductive DispatcherHooks where
  | noHooks
  | postUnsuccessfulFailover
  | postFailover
deriving DecidableEq

/-- Model of the tail of `executeCheckAndRecoverFunction`. -/
def dispatcherPostHooks (recoveryAttempted recoveryReturned skipProcesses successorIsNil : Bool) : DispatcherHooks :=
  if !recoveryAttempted then .noHooks
  else if !recoveryReturned then .noHooks
  else if skipProcesses then .noHooks
  else if successorIsNil then .postUnsuccessfulFailover
  else .postFailover

/-! ## Dead-co-master recovery

Models the promotion decisions of `RecoverDeadCoMaster`: the
must-promote-other-co-master determination, the forced or free candidate
replacement, the failure when the forced replacement did not produce the
other co-master, the unconditional delay-gate wait, and the cycle-breaking
detach.  Instances are identified by abstract keys. -/

abbrev CoKey := Nat

/-- Inputs of one `RecoverDeadCoMaster` run.  `replacementWhenForced` and
`replacementWhenFree` record the key returned by
`replacePromotedReplicaWithCandidate` when called with the other co-master
as candidate or with no candidate, respectively. -/
structure CoMasterEnv where
  cfgMustPromoteOtherCoMaster : Bool
  cfgDelayMasterPromotionIfSQLThreadNotUpToDate : Bool
  otherCoMasterReadOnly : Bool
  otherCoMasterKey : CoKey
  rewirerPromoted : Option CoKey
  replacementWhenForced : CoKey
  replacementWhenFree : CoKey
  waitForSQLThreadFails : Bool

/-- Result of one `RecoverDeadCoMaster` run.  `candidateKeyPassed` is `none`
when `replacePromotedReplicaWithCandidate` was never invoked, and otherwise
records the candidate argument it was given. -/
structure CoMasterResult where
  mustPromoteOtherCoMaster : Bool
  candidateKeyPassed : Option (Option CoKey)
  promotedReplica : Option CoKey
  detachedPromoted : Bool
  earlyReturnOnWaitError : Bool
deriving DecidableEq

/-- Model of `RecoverDeadCoMaster` (after a successful read of the other
co-master and the pre-failover hooks). -/
def RecoverDeadCoMaster (e : CoMasterEnv) : CoMasterResult :=
  let must := e.cfgMustPromoteOtherCoMaster || !e.otherCoMasterReadOnly
  match e.rewirerPromoted with
  | none => ⟨must, none, none, false, false⟩
  | some _ =>
    let cand : Option CoKey := if must then some e.otherCoMasterKey else none
    let afterReplace := if must then e.replacementWhenForced else e.replacementWhenFree
    if must && afterReplace != e.otherCoMasterKey then
      ⟨must, some cand, none, false, false⟩
    else if e.cfgDelayMasterPromotionIfSQLThreadNotUpToDate && e.waitForSQLThreadFails then
      ⟨must, some cand, some afterReplace, false, true⟩
    else
      ⟨must, some cand, some afterReplace, afterReplace != e.otherCoMasterKey, false⟩

/-! ## Graceful master takeover: the forced-recovery failure path

Models the tail of `GracefulMasterTakeover` after the call to
`ForceExecuteRecovery`. -/

/-- Outcome of the dispatched forced dead-master recovery as
`GracefulMasterTakeover` observes it: whether a recovery was attempted,
and, when a record was returned, its successor key. -/
structure GracefulRecoveryOutcome where
  recoveryAttempted : Bool
  topologyRecovery : Option (Option CoKey)

/-- What the tail of `GracefulMasterTakeover` does: whether it sets
read-only back to false on the demoted master, and whether it returns an
error instead of proceeding with the takeover. -/
structure GracefulTakeoverTail where
  readOnlyUndoneOnMaster : Bool
  returnedError : Bool
deriving DecidableEq

/-- Model of the `GracefulMasterTakeover` code that follows
`ForceExecuteRecovery`. -/
def gracefulMasterTakeoverAfterRecovery (o : GracefulRecoveryOutcome) : GracefulTakeoverTail :=
  if !o.recoveryAttempted then ⟨false, true⟩
  else
    match o.topologyRecovery with
    | none => ⟨false, true⟩
    | some successorKey =>
      match successorKey with
      | none => ⟨true, true⟩
      | some _ => ⟨false, false⟩

/-! ## Binlog-server dead-master recovery: postponed repoint loop

Models the closing loop of `recoverDeadMasterInBinlogServerTopology`, which
enqueues postponed functions repointing surviving binlog-server replicas
under the promoted master. -/

/-- The constant `maxBinlogServersToPromote` of the source. -/
def maxBinlogServersToPromote : Nat := 3

/-- The indexed loop of `recoverDeadMasterInBinlogServerTopology`: iterate
the binlog-server replicas with their index, stop as soon as the index
reaches `maxBinlogServersToPromote`, and enqueue a postponed repoint for
each replica visited before that. -/
def enqueueBinlogServerReplicas {α : Type} : Nat → List α → List α
  | _, [] => []
  | i, r :: rest =>
    if maxBinlogServersToPromote ≤ i then []
    else r :: enqueueBinlogServerReplicas (i + 1) rest

/-- The binlog-server replicas for which a postponed repoint is enqueued,
in read order. -/
def postponedBinlogServerReplicas {α : Type} (binlogServerReplicas : List α) : List α :=
  enqueueBinlogServerReplicas 0 binlogServerReplicas

/-! ## Claims -/

/-- C1 counterexample: with `force = true` and an active recovery on the
failed instance key, the dead-master and dead-co-master registration
prologues still register and execute a recovery — the registration does not
return nil, contradicting the claim that forced recovery leaves registration
serialization intact. -/
theorem forced_registration_ignores_active_recovery :
    checkAndRecoverDeadMasterProceeds true true true false = true ∧
    checkAndRecoverDeadCoMasterProceeds true true true false = true := by
  decide

/-- C1 (amended): the `force` flag overrides the automated-recovery policy
gate, the global recovery-disabled gate, and also the registration
serialization checks: both call sites pass `failIfActive = failIfRecent =
!force`, so a forced registration always succeeds regardless of active or
recent recoveries, while a non-forced registration is blocked by an active
recovery. -/
theorem force_flag_registration_behaviour :
    (∀ hasAuto active recent,
        checkAndRecoverDeadMasterProceeds hasAuto true active recent = true) ∧
    (∀ hasAuto recent,
        checkAndRecoverDeadMasterProceeds hasAuto false true recent = false) ∧
    (∀ hasAuto active recent,
        checkAndRecoverDeadCoMasterProceeds hasAuto true active recent = true) ∧
    (∀ hasAuto recent,
        checkAndRecoverDeadCoMasterProceeds hasAuto false true recent = false) ∧
    (∀ active recent, registerAttempt active recent false false = true) := by
  refine ⟨?_, ?_, ?_, ?_, ?_⟩ <;> decide

/-- C9: when the forced dead-master recovery dispatched by
`GracefulMasterTakeover` comes back with a record but no successor key, the
function sets read-only back to false on the demoted master and returns an
error. -/
theorem graceful_takeover_undoes_demotion_on_failure
    (o : GracefulRecoveryOutcome)
    (hAttempted : o.recoveryAttempted = true)
    (hNoSuccessor : o.topologyRecovery = some none) :
    gracefulMasterTakeoverAfterRecovery o = ⟨true, true⟩ := by
  simp [gracefulMasterTakeoverAfterRecovery, hAttempted, hNoSuccessor]

/-- C9 witness: the theorem applied to the concrete outcome of an attempted
recovery with no successor. -/
theorem graceful_takeover_undoes_demotion_on_failure_witness :
    (GracefulRecoveryOutcome.mk true (some none)).recoveryAttempted = true ∧
    (GracefulRecoveryOutcome.mk true (some none)).topologyRecovery = some none ∧
    gracefulMasterTakeoverAfterRecovery ⟨true, some none⟩ = ⟨true, true⟩ :=
  ⟨rfl, rfl, graceful_takeover_undoes_demotion_on_failure ⟨true, some none⟩ rfl rfl⟩

theorem enqueueBinlogServerReplicas_eq_take {α : Type} :
    ∀ (l : List α) (i : Nat),
      enqueueBinlogServerReplicas i l = l.take (maxBinlogServersToPromote - i) := by
  intro l
  induction l with
  | nil => intro i; simp [enqueueBinlogServerReplicas]
  | cons r rest ih =>
    intro i
    by_cases hi : maxBinlogServersToPromote ≤ i
    · simp [enqueueBinlogServerReplicas, hi, Nat.sub_eq_zero_of_le hi]
    · have hpos : 0 < maxBinlogServersToPromote - i := by omega
      obtain ⟨m, hm⟩ : ∃ m, maxBinlogServersToPromote - i = m + 1 :=
        ⟨maxBinlogServersToPromote - i - 1, by omega⟩
      have hm2 : maxBinlogServersToPromote - (i + 1) = m := by omega
      simp [enqueueBinlogServerReplicas, hi, hm, ih (i + 1), hm2]

/-- C10: the postponed-function loop of
`recoverDeadMasterInBinlogServerTopology` enqueues repoints for exactly the
first `maxBinlogServersToPromote = 3` binlog-server replicas in read order;
at most 3 are enqueued and replicas beyond the first three are never
moved. -/
theorem binlog_server_promotion_capped_at_three {α : Type} (l : List α) :
    (postponedBinlogServerReplicas l).length ≤ 3 ∧
    postponedBinlogServerReplicas l = l.take 3 := by
  have h := enqueueBinlogServerReplicas_eq_take (α := α) l 0
  constructor
  · rw [postponedBinlogServerReplicas, h]
    simp [List.length_take, maxBinlogServersToPromote]
  · rw [postponedBinlogServerReplicas, h]
    rfl

/-- C2 counterexample: a dead-intermediate-master recovery whose
pre-failover hook fails returns before `resolveRecovery` is ever reached —
no resolution is published for it, contradicting the claim that a fatal
pre-hook error still publishes a nil-successor resolution. -/
theorem im_prehook_failure_publishes_no_resolution :
    RecoverDeadIntermediateMaster
        ⟨true, false, false, true, true, ⟨3, 0, false⟩, ⟨0, true, false⟩, ⟨3, 0, false⟩⟩ =
      ⟨none, false, 0, 0⟩ := by
  decide

/-- C2 (amended): a pre-failover-hook failure short-circuits
`RecoverDeadIntermediateMaster` without publishing any resolution
(`resolveRecovery` is not reached); the recovery record still carries a nil
successor, so the dispatcher's post-recovery step does invoke the
post-unsuccessful-failover hooks. -/
theorem im_prehook_failure_behaviour (e : IMEnv)
    (hHook : e.preHookFails = true) (hSkip : e.skipProcesses = false) :
    (RecoverDeadIntermediateMaster e).resolutionPublished = false ∧
    (RecoverDeadIntermediateMaster e).successor = none ∧
    dispatcherPostHooks true true e.skipProcesses
        (RecoverDeadIntermediateMaster e).successor.isNone = .postUnsuccessfulFailover := by
  simp [RecoverDeadIntermediateMaster, dispatcherPostHooks, hHook, hSkip]

/-- C2 witness: the amended theorem applied to a concrete environment whose
pre-failover hook fails. -/
theorem im_prehook_failure_behaviour_witness :
    (IMEnv.mk true false false false false ⟨0, 0, false⟩ ⟨0, false, false⟩ ⟨0, 0, false⟩).preHookFails = true ∧
    (IMEnv.mk true false false false false ⟨0, 0, false⟩ ⟨0, false, false⟩ ⟨0, 0, false⟩).skipProcesses = false ∧
    ((RecoverDeadIntermediateMaster ⟨true, false, false, false, false, ⟨0, 0, false⟩, ⟨0, false, false⟩, ⟨0, 0, false⟩⟩).resolutionPublished = false ∧
      (RecoverDeadIntermediateMaster ⟨true, false, false, false, false, ⟨0, 0, false⟩, ⟨0, false, false⟩, ⟨0, 0, false⟩⟩).successor = none ∧
      dispatcherPostHooks true true
        (IMEnv.mk true false false false false ⟨0, 0, false⟩ ⟨0, false, false⟩ ⟨0, 0, false⟩).skipProcesses
        (RecoverDeadIntermediateMaster ⟨true, false, false, false, false, ⟨0, 0, false⟩, ⟨0, false, false⟩, ⟨0, 0, false⟩⟩).successor.isNone = .postUnsuccessfulFailover) :=
  ⟨rfl, rfl,
    im_prehook_failure_behaviour ⟨true, false, false, false, false, ⟨0, 0, false⟩, ⟨0, false, false⟩, ⟨0, 0, false⟩⟩ rfl rfl⟩

theorem overrideMasterPromotion_promoted_eq (cfg : DeadMasterOverrideConfig)
    (dc rg : String) (p q : PromotedReplica) (w : Bool)
    (h : (overrideMasterPromotion cfg dc rg (some p) w).promoted = some q) :
    q = p := by
  simp only [overrideMasterPromotion] at h
  simp only [apply_ite OverrideResult.promoted] at h
  split_ifs at h <;> simp_all

theorem overrideMasterPromotion_cross_dc (cfg : DeadMasterOverrideConfig)
    (dc rg : String) (p : PromotedReplica) (w : Bool)
    (hPrev : cfg.geo.preventCrossDataCenterMasterFailover = true)
    (hne : p.geoInfo.dataCenter ≠ dc) :
    overrideMasterPromotion cfg dc rg (some p) w = ⟨none, false⟩ := by
  have hgeo : (MasterFailoverGeographicConstraintSatisfied cfg.geo dc rg p.geoInfo).1 = false := by
    unfold MasterFailoverGeographicConstraintSatisfied
    rw [if_pos ⟨hPrev, hne⟩]
  simp only [overrideMasterPromotion]
  rw [if_pos hgeo]

/-- C3: with `PreventCrossDataCenterMasterFailover = true`, the successor
passed to `resolveRecovery` by a dead-master recovery, when present, lives in
the failed instance's data center; a rewirer promotion in a different data
center is cancelled by the geographic override gate and the recovery
resolves with nil successor (hence recorded unsuccessful). -/
theorem dead_master_respects_cross_dc_constraint (cfg : DeadMasterOverrideConfig)
    (dc rg : String) (p q : PromotedReplica) (w : Bool)
    (hPrev : cfg.geo.preventCrossDataCenterMasterFailover = true) :
    (deadMasterResolvedSuccessor cfg dc rg (some p) w = some q →
        q.geoInfo.dataCenter = dc) ∧
    (p.geoInfo.dataCenter ≠ dc →
        deadMasterResolvedSuccessor cfg dc rg (some p) w = none ∧
        resolveRecoveryIsSuccessful (deadMasterResolvedSuccessor cfg dc rg (some p) w) = false) := by
  constructor
  · intro hres
    have hq := overrideMasterPromotion_promoted_eq cfg dc rg p q w hres
    subst hq
    by_contra hne
    have hnone := overrideMasterPromotion_cross_dc cfg dc rg q w hPrev hne
    rw [deadMasterResolvedSuccessor, hnone] at hres
    exact Option.noConfusion hres
  · intro hne
    have hnone := overrideMasterPromotion_cross_dc cfg dc rg p w hPrev hne
    rw [deadMasterResolvedSuccessor, hnone]
    exact ⟨rfl, rfl⟩

/-- C3 witness: applied with the constraint enabled, a promotion in the
failed master's data center, and a cross-DC promotion. -/
theorem dead_master_respects_cross_dc_constraint_witness :
    (DeadMasterOverrideConfig.mk ⟨true, false⟩ false false).geo.preventCrossDataCenterMasterFailover = true ∧
    ((deadMasterResolvedSuccessor ⟨⟨true, false⟩, false, false⟩ "dc1" "r1"
        (some ⟨⟨"dc2", "r1"⟩, true⟩) true = some ⟨⟨"dc2", "r1"⟩, true⟩ →
        (PromotedReplica.mk ⟨"dc2", "r1"⟩ true).geoInfo.dataCenter = "dc1") ∧
      ((PromotedReplica.mk ⟨"dc2", "r1"⟩ true).geoInfo.dataCenter ≠ "dc1" →
        deadMasterResolvedSuccessor ⟨⟨true, false⟩, false, false⟩ "dc1" "r1"
            (some ⟨⟨"dc2", "r1"⟩, true⟩) true = none ∧
        resolveRecoveryIsSuccessful (deadMasterResolvedSuccessor ⟨⟨true, false⟩, false, false⟩
            "dc1" "r1" (some ⟨⟨"dc2", "r1"⟩, true⟩) true) = false)) :=
  ⟨rfl, dead_master_respects_cross_dc_constraint ⟨⟨true, false⟩, false, false⟩ "dc1" "r1"
      ⟨⟨"dc2", "r1"⟩, true⟩ ⟨⟨"dc2", "r1"⟩, true⟩ true rfl⟩

/-- C4: the order of the dead-master override gates.  A geographic
constraint violation cancels the promotion outright; with the geographic
constraint satisfied, `FailMasterPromotionIfSQLThreadNotUpToDate` on a stale
SQL thread cancels the promotion without waiting;
`DelayMasterPromotionIfSQLThreadNotUpToDate` alone makes the executor enter
the wait, keeping the promotion exactly when the wait succeeds; and with
both flags set on a stale SQL thread the fail gate takes precedence — the
promotion is cancelled and no wait is entered. -/
theorem dead_master_override_gate_order (cfg : DeadMasterOverrideConfig)
    (dc rg : String) (p : PromotedReplica) (w : Bool) :
    ((MasterFailoverGeographicConstraintSatisfied cfg.geo dc rg p.geoInfo).1 = false →
        overrideMasterPromotion cfg dc rg (some p) w = ⟨none, false⟩) ∧
    ((MasterFailoverGeographicConstraintSatisfied cfg.geo dc rg p.geoInfo).1 = true →
        cfg.failMasterPromotionIfSQLThreadNotUpToDate = true →
        p.sqlThreadUpToDate = false →
        overrideMasterPromotion cfg dc rg (some p) w = ⟨none, false⟩) ∧
    ((MasterFailoverGeographicConstraintSatisfied cfg.geo dc rg p.geoInfo).1 = true →
        cfg.failMasterPromotionIfSQLThreadNotUpToDate = false →
        cfg.delayMasterPromotionIfSQLThreadNotUpToDate = true →
        p.sqlThreadUpToDate = false →
        overrideMasterPromotion cfg dc rg (some p) w =
          ⟨if w then some p else none, true⟩) ∧
    ((MasterFailoverGeographicConstraintSatisfied cfg.geo dc rg p.geoInfo).1 = true →
        cfg.failMasterPromotionIfSQLThreadNotUpToDate = true →
        cfg.delayMasterPromotionIfSQLThreadNotUpToDate = true →
        p.sqlThreadUpToDate = false →
        overrideMasterPromotion cfg dc rg (some p) w = ⟨none, false⟩) := by
  refine ⟨?_, ?_, ?_, ?_⟩
  · intro hgeo
    simp only [overrideMasterPromotion]
    rw [if_pos hgeo]
  · intro hgeo hfail hsql
    simp only [overrideMasterPromotion]
    rw [if_neg (by simp [hgeo]), if_pos ⟨hfail, hsql⟩]
  · intro hgeo hfail hdelay hsql
    simp only [overrideMasterPromotion]
    rw [if_neg (by simp [hgeo]), if_neg (by simp [hfail]), if_pos ⟨hdelay, hsql⟩]
    cases w <;> rfl
  · intro hgeo hfail hdelay hsql
    simp only [overrideMasterPromotion]
    rw [if_neg (by simp [hgeo]), if_pos ⟨hfail, hsql⟩]

/-- C4 witness: the gate-order theorem applied with both SQL-thread flags
set, a stale SQL thread and a satisfied geographic constraint: the fail
gate wins and no wait is entered. -/
theorem dead_master_override_gate_order_witness :
    (MasterFailoverGeographicConstraintSatisfied
        (DeadMasterOverrideConfig.mk ⟨false, false⟩ true true).geo "dc1" "r1"
        (PromotedReplica.mk ⟨"dc1", "r1"⟩ false).geoInfo).1 = true ∧
    (DeadMasterOverrideConfig.mk ⟨false, false⟩ true true).failMasterPromotionIfSQLThreadNotUpToDate = true ∧
    (DeadMasterOverrideConfig.mk ⟨false, false⟩ true true).delayMasterPromotionIfSQLThreadNotUpToDate = true ∧
    (PromotedReplica.mk ⟨"dc1", "r1"⟩ false).sqlThreadUpToDate = false ∧
    overrideMasterPromotion ⟨⟨false, false⟩, true, true⟩ "dc1" "r1"
        (some ⟨⟨"dc1", "r1"⟩, false⟩) true = ⟨none, false⟩ :=
  ⟨by decide, rfl, rfl, rfl,
    (dead_master_override_gate_order ⟨⟨false, false⟩, true, true⟩ "dc1" "r1"
        ⟨⟨"dc1", "r1"⟩, false⟩ true).2.2.2 (by decide) rfl rfl rfl⟩

/-- C7: in dead-co-master recovery, must-promote-other-co-master holds
exactly when the operator flag `CoMasterRecoveryMustPromoteOtherCoMaster` is
set or the other co-master is writable (not read-only).  When it holds and
the rewirer produced a promotion, the replacement is forced with the other
co-master as candidate (otherwise any candidate is allowed), and a
replacement result that still differs from the other co-master turns the
recovery into a failure with nil promoted replica. -/
theorem co_master_must_promote_other (e : CoMasterEnv)
    (hPromoted : e.rewirerPromoted.isSome = true) :
    (RecoverDeadCoMaster e).mustPromoteOtherCoMaster =
        (e.cfgMustPromoteOtherCoMaster || !e.otherCoMasterReadOnly) ∧
    ((e.cfgMustPromoteOtherCoMaster || !e.otherCoMasterReadOnly) = true →
        (RecoverDeadCoMaster e).candidateKeyPassed = some (some e.otherCoMasterKey)) ∧
    ((e.cfgMustPromoteOtherCoMaster || !e.otherCoMasterReadOnly) = false →
        (RecoverDeadCoMaster e).candidateKeyPassed = some none) ∧
    ((e.cfgMustPromoteOtherCoMaster || !e.otherCoMasterReadOnly) = true →
        e.replacementWhenForced ≠ e.otherCoMasterKey →
        (RecoverDeadCoMaster e).promotedReplica = none) := by
  obtain ⟨k, hk⟩ := Option.isSome_iff_exists.mp hPromoted
  refine ⟨?_, ?_, ?_, ?_⟩
  · simp only [RecoverDeadCoMaster, hk]
    split_ifs <;> rfl
  · intro hmust
    simp only [RecoverDeadCoMaster, hk, hmust]
    split_ifs <;> simp_all
  · intro hmust
    simp only [RecoverDeadCoMaster, hk, hmust]
    split_ifs <;> simp_all
  · intro hmust hdiff
    have hbne : (e.replacementWhenForced != e.otherCoMasterKey) = true := by
      simp [bne_iff_ne, hdiff]
    simp only [RecoverDeadCoMaster, hk, hmust]
    simp [hbne]

/-- C7 witness: the theorem applied to a concrete environment in which the
other co-master is writable, so must-promote-other holds, and the forced
replacement fails to produce the other co-master. -/
theorem co_master_must_promote_other_witness :
    (CoMasterEnv.mk false false false 5 (some 7) 9 7 false).rewirerPromoted.isSome = true ∧
    ((CoMasterEnv.mk false false false 5 (some 7) 9 7 false).cfgMustPromoteOtherCoMaster ||
        !(CoMasterEnv.mk false false false 5 (some 7) 9 7 false).otherCoMasterReadOnly) = true ∧
    (RecoverDeadCoMaster ⟨false, false, false, 5, some 7, 9, 7, false⟩).candidateKeyPassed = some (some 5) ∧
    (RecoverDeadCoMaster ⟨false, false, false, 5, some 7, 9, 7, false⟩).promotedReplica = none :=
  ⟨rfl, rfl,
    (co_master_must_promote_other ⟨false, false, false, 5, some 7, 9, 7, false⟩ rfl).2.1 rfl,
    (co_master_must_promote_other ⟨false, false, false, 5, some 7, 9, 7, false⟩ rfl).2.2.2 rfl (by decide)⟩

/-- C8 counterexample: with `DelayMasterPromotionIfSQLThreadNotUpToDate`
set and the SQL-thread wait failing, `RecoverDeadCoMaster` returns early
with a promoted replica (key 7) that differs from the other co-master
(key 5) and without detaching it from its former master — contradicting the
claim that the promoted server is always detached in that situation. -/
theorem co_master_detach_skipped_on_wait_error :
    RecoverDeadCoMaster ⟨false, true, true, 5, some 7, 5, 7, true⟩ =
      ⟨false, some none, some 7, false, true⟩ ∧ (7 : CoKey) ≠ 5 := by
  constructor
  · decide
  · decide

/-- C8 (amended): whenever `RecoverDeadCoMaster` completes without the
early return caused by a failed delay-gate SQL-thread wait, the promoted
server is detached from its former master exactly when a promotion exists
and differs from the other co-master. -/
theorem co_master_detach_iff_promoted_not_other (e : CoMasterEnv)
    (hNoEarly : (RecoverDeadCoMaster e).earlyReturnOnWaitError = false) :
    (RecoverDeadCoMaster e).detachedPromoted = true ↔
      ∃ k, (RecoverDeadCoMaster e).promotedReplica = some k ∧ k ≠ e.otherCoMasterKey := by
  cases hk : e.rewirerPromoted with
  | none =>
    simp only [RecoverDeadCoMaster, hk]
    simp
  | some k0 =>
    simp only [RecoverDeadCoMaster, hk] at hNoEarly ⊢
    split_ifs at hNoEarly ⊢ <;> simp_all [bne_iff_ne]

/-- C8 amended-claim witness: applied to a run that promotes key 9 while the
other co-master is key 5 and the wait is not entered: the detach fires. -/
theorem co_master_detach_iff_promoted_not_other_witness :
    (RecoverDeadCoMaster ⟨false, false, true, 5, some 7, 5, 9, false⟩).earlyReturnOnWaitError = false ∧
    (RecoverDeadCoMaster ⟨false, false, true, 5, some 7, 5, 9, false⟩).detachedPromoted = true :=
  ⟨rfl,
    (co_master_detach_iff_promoted_not_other ⟨false, false, true, 5, some 7, 5, 9, false⟩ rfl).mpr
      ⟨9, rfl, by decide⟩⟩

/-- C6 counterexample: the candidate-sibling relocation of plan A moves two
replicas but reports a per-replica error, so it does not resolve the
recovery; regroup and relocate-up then fail, and the recovery resolves with
nil successor even though a plan placed two replicas — contradicting both
"the first plan that moves at least one replica sets the successor" and
"successor is nil iff no plan placed any replica". -/
theorem im_successor_nil_despite_replicas_moved :
    RecoverDeadIntermediateMaster
        ⟨false, false, false, true, true, ⟨2, 1, false⟩, ⟨0, false, true⟩, ⟨0, 0, true⟩⟩ =
      ⟨none, true, 2, 0⟩ := by
  decide

/-- C6 (amended): plans still run in the order A (same-DC candidate
sibling), B (generic regroup), C (other-DC candidate sibling), D (relocate
up), but a candidate-sibling relocation resolves the recovery only when it
moves at least one replica with no errors at all, plan B on its own never
resolves the recovery (it only pre-selects the successor reported if plan D
later succeeds), and the recovery resolves with a non-nil successor iff
plan A or plan C resolved or plan D relocated at least one replica;
`resolveRecovery` is reached on every such run. -/
theorem im_plan_resolution (e : IMEnv)
    (hHook : (e.preHookFails && !e.skipProcesses) = false)
    (hRead : e.readInstanceFails = false) :
    ((RecoverDeadIntermediateMaster e).successor ≠ none ↔
      ((e.hasCandidateSibling && e.candidateSiblingSameDC) &&
          candidateRelocationResolves e.relocateToCandidate) = true ∨
      ((e.hasCandidateSibling && !e.candidateSiblingSameDC) &&
          candidateRelocationResolves e.relocateToCandidate) = true ∨
      0 < e.relocateUp.moved) ∧
    (RecoverDeadIntermediateMaster e).resolutionPublished = true := by
  simp only [RecoverDeadIntermediateMaster, hHook, hRead]
  split_ifs <;> simp_all

/-- C6 amended-claim witness: a run with no candidate sibling, a flawless
regroup, and a relocate-up that moves one replica resolves with a non-nil
successor and publishes its resolution. -/
theorem im_plan_resolution_witness :
    ((IMEnv.mk false false false false false ⟨0, 0, false⟩ ⟨0, true, false⟩ ⟨1, 0, false⟩).preHookFails &&
        !(IMEnv.mk false false false false false ⟨0, 0, false⟩ ⟨0, true, false⟩ ⟨1, 0, false⟩).skipProcesses) = false ∧
    (IMEnv.mk false false false false false ⟨0, 0, false⟩ ⟨0, true, false⟩ ⟨1, 0, false⟩).readInstanceFails = false ∧
    (RecoverDeadIntermediateMaster ⟨false, false, false, false, false, ⟨0, 0, false⟩, ⟨0, true, false⟩, ⟨1, 0, false⟩⟩).successor ≠ none ∧
    (RecoverDeadIntermediateMaster ⟨false, false, false, false, false, ⟨0, 0, false⟩, ⟨0, true, false⟩, ⟨1, 0, false⟩⟩).resolutionPublished = true :=
  ⟨rfl, rfl,
    (im_plan_resolution ⟨false, false, false, false, false, ⟨0, 0, false⟩, ⟨0, true, false⟩, ⟨1, 0, false⟩⟩ rfl rfl).1.mpr
      (Or.inr (Or.inr (by decide))),
    (im_plan_resolution ⟨false, false, false, false, false, ⟨0, 0, false⟩, ⟨0, true, false⟩, ⟨1, 0, false⟩⟩ rfl rfl).2⟩

/-- A concrete analysis entry used to instantiate placeholder-substitution
results. -/
def sampleAnalysisEntry : ReplicationAnalysis :=
  { analysis := "DeadMaster".toList
    description := "master cannot be reached".toList
    commandHint := "".toList
    analyzedInstanceKey := { hostname := "failed.example.com".toList, port := 3306 }
    clusterName := "c1".toList
    clusterAlias := "c1alias".toList
    clusterDomain := "c1.example.net".toList
    countReplicas := 2
    isDowntimed := false
    hasAutomatedMasterRecovery := true
    hasAutomatedIntermediateMasterRecovery := true
    slaveHosts := ["r1:3306".toList, "r2:3306".toList] }

/-- A concrete recovery that resolved with nil successor. -/
def recoveryWithoutSuccessor : TopologyRecovery :=
  { uid := "abcd1234".toList
    analysisEntry := sampleAnalysisEntry
    successorKey := none
    successorAlias := [] 
    lostReplicas := [] }

/-- C5 counterexample: on a recovery with nil successor key, the command
consisting of the placeholder `{successorHost}` comes back from
`replaceCommandPlaceholders` unchanged — the placeholder is left in the
command, not replaced by the empty string. -/
theorem successor_placeholder_not_replaced_when_nil :
    replaceCommandPlaceholders phSuccessorHost recoveryWithoutSuccessor ("orc.example.com".toList) =
      phSuccessorHost ∧ phSuccessorHost ≠ ([] : Str) := by
  constructor
  · decide
  · decide

/-- A hook command consisting of the three successor placeholders. -/
def successorPlaceholdersCommand : Str :=
  "{successorHost} {successorPort} {successorAlias}".toList

/-- C5 (amended): placeholder substitution fills the successor placeholders
only when a successor key is present.  For any recovery with nil successor
key, `{successorHost}`, `{successorPort}` and `{successorAlias}` are left
untouched in the command; with a successor present they are substituted by
its host, port and alias. -/
theorem successor_placeholder_substitution (tr : TopologyRecovery) (thisHostname : Str)
    (h : tr.successorKey = none) :
    replaceCommandPlaceholders successorPlaceholdersCommand tr thisHostname =
        successorPlaceholdersCommand ∧
    replaceCommandPlaceholders successorPlaceholdersCommand
        { tr with successorKey := some { hostname := "h".toList, port := 3306 },
                  successorAlias := "a".toList } thisHostname =
      "h 3306 a".toList := by
  constructor
  · simp only [replaceCommandPlaceholders, h]
    rw [replaceAll_of_not_occurs successorPlaceholdersCommand phFailureType _ (by decide),
        replaceAll_of_not_occurs successorPlaceholdersCommand phFailureDescription _ (by decide),
        replaceAll_of_not_occurs successorPlaceholdersCommand phCommand _ (by decide),
        replaceAll_of_not_occurs successorPlaceholdersCommand phFailedHost _ (by decide),
        replaceAll_of_not_occurs successorPlaceholdersCommand phFailedPort _ (by decide),
        replaceAll_of_not_occurs successorPlaceholdersCommand phFailureCluster _ (by decide),
        replaceAll_of_not_occurs successorPlaceholdersCommand phFailureClusterAlias _ (by decide),
        replaceAll_of_not_occurs successorPlaceholdersCommand phFailureClusterDomain _ (by decide),
        replaceAll_of_not_occurs successorPlaceholdersCommand phCountSlaves _ (by decide),
        replaceAll_of_not_occurs successorPlaceholdersCommand phCountReplicas _ (by decide),
        replaceAll_of_not_occurs successorPlaceholdersCommand phIsDowntimed _ (by decide),
        replaceAll_of_not_occurs successorPlaceholdersCommand phAutoMasterRecovery _ (by decide),
        replaceAll_of_not_occurs successorPlaceholdersCommand phAutoIntermediateMasterRecovery _ (by decide),
        replaceAll_of_not_occurs successorPlaceholdersCommand phOrchestratorHost _ (by decide),
        replaceAll_of_not_occurs successorPlaceholdersCommand phRecoveryUID _ (by decide),
        replaceAll_of_not_occurs successorPlaceholdersCommand phIsSuccessful _ (by decide),
        replaceAll_of_not_occurs successorPlaceholdersCommand phLostSlaves _ (by decide),
        replaceAll_of_not_occurs successorPlaceholdersCommand phLostReplicas _ (by decide),
        replaceAll_of_not_occurs successorPlaceholdersCommand phCountLostReplicas _ (by decide),
        replaceAll_of_not_occurs successorPlaceholdersCommand phSlaveHosts _ (by decide),
        replaceAll_of_not_occurs successorPlaceholdersCommand phReplicaHosts _ (by decide)]
  · simp only [replaceCommandPlaceholders]
    rw [replaceAll_of_not_occurs successorPlaceholdersCommand phFailureType _ (by decide),
        replaceAll_of_not_occurs successorPlaceholdersCommand phFailureDescription _ (by decide),
        replaceAll_of_not_occurs successorPlaceholdersCommand phCommand _ (by decide),
        replaceAll_of_not_occurs successorPlaceholdersCommand phFailedHost _ (by decide),
        replaceAll_of_not_occurs successorPlaceholdersCommand phFailedPort _ (by decide),
        replaceAll_of_not_occurs successorPlaceholdersCommand phFailureCluster _ (by decide),
        replaceAll_of_not_occurs successorPlaceholdersCommand phFailureClusterAlias _ (by decide),
        replaceAll_of_not_occurs successorPlaceholdersCommand phFailureClusterDomain _ (by decide),
        replaceAll_of_not_occurs successorPlaceholdersCommand phCountSlaves _ (by decide),
        replaceAll_of_not_occurs successorPlaceholdersCommand phCountReplicas _ (by decide),
        replaceAll_of_not_occurs successorPlaceholdersCommand phIsDowntimed _ (by decide),
        replaceAll_of_not_occurs successorPlaceholdersCommand phAutoMasterRecovery _ (by decide),
        replaceAll_of_not_occurs successorPlaceholdersCommand phAutoIntermediateMasterRecovery _ (by decide),
        replaceAll_of_not_occurs successorPlaceholdersCommand phOrchestratorHost _ (by decide),
        replaceAll_of_not_occurs successorPlaceholdersCommand phRecoveryUID _ (by decide),
        replaceAll_of_not_occurs successorPlaceholdersCommand phIsSuccessful _ (by decide)]
    have hsucc :
        replaceAll (replaceAll (replaceAll successorPlaceholdersCommand phSuccessorHost
            ("h".toList)) phSuccessorPort (natStr 3306)) phSuccessorAlias ("a".toList) =
          "h 3306 a".toList := by
      decide
    rw [hsucc,
        replaceAll_of_not_occurs ("h 3306 a".toList) phLostSlaves _ (by decide),
        replaceAll_of_not_occurs ("h 3306 a".toList) phLostReplicas _ (by decide),
        replaceAll_of_not_occurs ("h 3306 a".toList) phCountLostReplicas _ (by decide),
        replaceAll_of_not_occurs ("h 3306 a".toList) phSlaveHosts _ (by decide),
        replaceAll_of_not_occurs ("h 3306 a".toList) phReplicaHosts _ (by decide)]

/-- C5 amended-claim witness: the substitution theorem applied to the
concrete nil-successor recovery. -/
theorem successor_placeholder_substitution_witness :
    recoveryWithoutSuccessor.successorKey = none ∧
    (replaceCommandPlaceholders successorPlaceholdersCommand recoveryWithoutSuccessor
          ("orc.example.com".toList) = successorPlaceholdersCommand ∧
      replaceCommandPlaceholders successorPlaceholdersCommand
          { recoveryWithoutSuccessor with
              successorKey := some { hostname := "h".toList, port := 3306 },
              successorAlias := "a".toList } ("orc.example.com".toList) =
        "h 3306 a".toList) :=
  ⟨rfl, successor_placeholder_substitution recoveryWithoutSuccessor ("orc.example.com".toList) rfl⟩
